import Mathlib

/-!
Verification of the Vulkan initialization pipeline of `VulkanEngine/main.cpp`.

The development shallowly embeds the pure decision logic of the pipeline:
queue-family scanning (`findQueueFamilies`), physical device selection
(`selectPhysicalDevice`), swapchain negotiation (`chooseSwapSurfaceFormat`,
`chooseSwapPresentationMode`, `chooseSwapExtent`, `requestedImageCount`,
`sharingConfig`), validation-layer checking (`isValidationLayerSupported`,
`createInstanceCheck`) and the creation/teardown stage orders
(`createOrder`, `destroyOrder`).

Driver queries (queue-family properties, per-index surface-support answers,
available extensions/layers, surface capabilities, formats and presentation
modes) are modelled as explicit inputs; machine integers (`uint32_t`) are
modelled as `Nat` with explicit `% 2 ^ 32` where the source can overflow.
-/

namespace VulkanEngine

/-! ## Constants from the source -/

def WINDOW_WIDTH : Nat := 800

def WINDOW_HEIGHT : Nat := 600

def UINT32_MAX : Nat := 4294967295

def VK_QUEUE_GRAPHICS_BIT : Nat := 1

def VK_FORMAT_B8G8R8A8_SRGB : Nat := 50

def VK_COLOR_SPACE_SRGB_NONLINEAR_KHR : Nat := 0

def VK_PRESENT_MODE_MAILBOX_KHR : Nat := 1

def VK_PRESENT_MODE_FIFO_KHR : Nat := 2

def VK_SHARING_MODE_EXCLUSIVE : Nat := 0

def VK_SHARING_MODE_CONCURRENT : Nat := 1

/-- `validationLayers` member of `Framework`. -/
def validationLayers : List String := ["VK_LAYER_KHRONOS_validation"]

/-- `deviceExtensions` member of `Framework` (`VK_KHR_SWAPCHAIN_EXTENSION_NAME`). -/
def deviceExtensions : List String := ["VK_KHR_swapchain"]

/-! ## Data model -/

/-- The error cases thrown by the pipeline (`throw std::runtime_error` sites). -/
inductive VulkanError where
  | UnsupportedLayer
  | InstanceCreationFailed
  | DiagnosticsSetupFailed
  | SurfaceCreationFailed
  | NoAcceleratorFound
  | NoSuitableAccelerator
  | DeviceCreationFailed
  | SwapchainCreationFailed
  | ImageViewCreationFailed
  deriving DecidableEq, Repr

/-- One entry of the queue-family list reported for a physical device:
its `queueFlags` bitmask, together with the answer of the per-index
`vkGetPhysicalDeviceSurfaceSupportKHR` query against the bound surface. -/
structure QueueFamilyProps where
  queueFlags : Nat
  presentationSupport : Bool
  deriving DecidableEq, Repr

/-- `VkExtent2D`: a pair of `uint32_t` dimensions. -/
structure VkExtent2D where
  width : Nat
  height : Nat
  deriving DecidableEq, Repr

/-- `VkSurfaceFormatKHR`: a (format, color space) enumerant pair. -/
structure VkSurfaceFormat where
  format : Nat
  colorSpace : Nat
  deriving DecidableEq, Repr

/-- `VkSurfaceCapabilitiesKHR` (the fields the source reads). -/
structure VkSurfaceCapabilities where
  minImageCount : Nat
  maxImageCount : Nat
  currentExtent : VkExtent2D
  minImageExtent : VkExtent2D
  maxImageExtent : VkExtent2D
  deriving DecidableEq, Repr

/-- A physical accelerator as the pipeline observes it: the queue-family
list (with per-index surface-support answers), the device's available
extension names, and the swapchain-support query results against the bound
surface (`querySwapChainSupport`). -/
structure PhysicalDevice where
  queueFamilies : List QueueFamilyProps
  availableExtensions : List String
  surfaceCapabilities : VkSurfaceCapabilities
  surfaceFormats : List VkSurfaceFormat
  presentationModes : List Nat
  deriving DecidableEq, Repr

/-- `QueueFamilyIndices`: two optional `uint32_t` indices. -/
structure QueueFamilyIndices where
  graphicsFamily : Option Nat
  presentationFamily : Option Nat
  deriving DecidableEq, Repr

/-- `QueueFamilyIndices::IsComplete`. -/
def IsComplete (q : QueueFamilyIndices) : Bool :=
  q.graphicsFamily.isSome && q.presentationFamily.isSome

/-! ## Queue family scan (`findQueueFamilies`) -/

/-- Test `queueFamily.queueFlags & VK_QUEUE_GRAPHICS_BIT`. -/
def supportsGraphics (qf : QueueFamilyProps) : Bool :=
  (qf.queueFlags &&& VK_QUEUE_GRAPHICS_BIT) != 0

/-- The body of the `for` loop of `findQueueFamilies`, with the running
index `i` and the accumulated `indices`.  At each element: first assign
`graphicsFamily := i` when the graphics bit is set, then exit the loop if
`IsComplete`, otherwise assign `presentationFamily := i` when the per-index
presentation query passed, and continue with `i + 1`. -/
def findQueueFamiliesLoop : List QueueFamilyProps → Nat → QueueFamilyIndices → QueueFamilyIndices
  | [], _, indices => indices
  | qf :: rest, i, indices =>
    let indices1 := if supportsGraphics qf then { indices with graphicsFamily := some i } else indices
    if IsComplete indices1 then indices1
    else
      let indices2 :=
        if qf.presentationSupport then { indices1 with presentationFamily := some i } else indices1
      findQueueFamiliesLoop rest (i + 1) indices2

/-- `findQueueFamilies`: scan the device's queue-family list starting from
index 0 with both fields absent. -/
def findQueueFamilies (queueFamilies : List QueueFamilyProps) : QueueFamilyIndices :=
  findQueueFamiliesLoop queueFamilies 0 ⟨none, none⟩

/-! ## Device suitability and selection -/

/-- `checkDeviceExtensionSupport`: the required set (`deviceExtensions`)
must become empty after erasing every available extension name. -/
def checkDeviceExtensionSupport (d : PhysicalDevice) : Bool :=
  (deviceExtensions.filter (fun r => !(d.availableExtensions.contains r))).isEmpty

/-- `isDeviceSuitable`: queue completeness, extension support, and (only
evaluated under extension support) swapchain adequacy. -/
def isDeviceSuitable (d : PhysicalDevice) : Bool :=
  let indices := findQueueFamilies d.queueFamilies
  let supportedExtensions := checkDeviceExtensionSupport d
  let isSwapChainAdequate :=
    if supportedExtensions then !d.surfaceFormats.isEmpty && !d.presentationModes.isEmpty else false
  IsComplete indices && supportedExtensions && isSwapChainAdequate

/-- `selectPhysicalDevice`: throw `NoAcceleratorFound` on an empty
enumeration; otherwise take the first suitable device (the loop breaks at
the first success, and the `VK_NULL_HANDLE` sentinel left untouched means
no device qualified: `NoSuitableAccelerator`). -/
def selectPhysicalDevice (devices : List PhysicalDevice) : Except VulkanError PhysicalDevice :=
  if devices.length = 0 then .error .NoAcceleratorFound
  else
    match devices.find? isDeviceSuitable with
    | some d => .ok d
    | none => .error .NoSuitableAccelerator

/-- The pair of `.value()` unwraps performed by `createLogicalDevice` and
`createSwapChain` on a fresh `findQueueFamilies` result; `none` models the
`std::bad_optional_access` branch of `std::optional::value`. -/
def unwrapQueueFamilies (q : QueueFamilyIndices) : Option (Nat × Nat) :=
  match q.graphicsFamily, q.presentationFamily with
  | some g, some p => some (g, p)
  | _, _ => none

/-! ## Swapchain negotiation -/

/-- `chooseSwapSurfaceFormat`: linear scan for the exact
(`VK_FORMAT_B8G8R8A8_SRGB`, `VK_COLOR_SPACE_SRGB_NONLINEAR_KHR`) pair,
falling back to `availableFormats[0]` (`none` models the out-of-bounds
read on an empty vector, which the source never performs on the suitable
device). -/
def chooseSwapSurfaceFormat (availableFormats : List VkSurfaceFormat) : Option VkSurfaceFormat :=
  match availableFormats.find?
      (fun f => f.format == VK_FORMAT_B8G8R8A8_SRGB && f.colorSpace == VK_COLOR_SPACE_SRGB_NONLINEAR_KHR) with
  | some f => some f
  | none => availableFormats.head?

/-- `chooseSwapPresentationMode`: linear scan for
`VK_PRESENT_MODE_MAILBOX_KHR`, falling back to `VK_PRESENT_MODE_FIFO_KHR`
unconditionally. -/
def chooseSwapPresentationMode (availablePresentationModes : List Nat) : Nat :=
  match availablePresentationModes.find? (fun m => m == VK_PRESENT_MODE_MAILBOX_KHR) with
  | some m => m
  | none => VK_PRESENT_MODE_FIFO_KHR

/-- `chooseSwapExtent`: if `capabilities.currentExtent.width != UINT32_MAX`
return `currentExtent` unchanged, else clamp the fixed window target
per axis with `max(minImageExtent, min(maxImageExtent, target))`. -/
def chooseSwapExtent (capabilities : VkSurfaceCapabilities) : VkExtent2D :=
  if capabilities.currentExtent.width ≠ UINT32_MAX then capabilities.currentExtent
  else
    { width := max capabilities.minImageExtent.width (min capabilities.maxImageExtent.width WINDOW_WIDTH),
      height := max capabilities.minImageExtent.height (min capabilities.maxImageExtent.height WINDOW_HEIGHT) }

/-- The `imageCount` computation of `createSwapChain`: `minImageCount + 1`
as a `uint32_t` (hence the explicit `% 2 ^ 32`), clamped down to
`maxImageCount` when that maximum is nonzero and exceeded. -/
def requestedImageCount (capabilities : VkSurfaceCapabilities) : Nat :=
  let imageCount := (capabilities.minImageCount + 1) % 2 ^ 32
  if capabilities.maxImageCount > 0 ∧ imageCount > capabilities.maxImageCount then
    capabilities.maxImageCount
  else imageCount

/-- The sharing-related fields of `VkSwapchainCreateInfoKHR` that
`createSwapChain` fills in. -/
structure SharingConfig where
  imageSharingMode : Nat
  queueFamilyIndexCount : Nat
  pQueueFamilyIndices : List Nat
  deriving DecidableEq, Repr

/-- The sharing-mode branch of `createSwapChain`, applied to the two
unwrapped queue-family indices (`graphicsFamily.value()`,
`presentationFamily.value()`; on present optionals the source's comparison
of the optionals coincides with comparing the values). -/
def sharingConfig (graphicsFamily presentationFamily : Nat) : SharingConfig :=
  if graphicsFamily ≠ presentationFamily then
    { imageSharingMode := VK_SHARING_MODE_CONCURRENT
      queueFamilyIndexCount := 2
      pQueueFamilyIndices := [graphicsFamily, presentationFamily] }
  else
    { imageSharingMode := VK_SHARING_MODE_EXCLUSIVE
      queueFamilyIndexCount := 0
      pQueueFamilyIndices := [] }

/-- The preferred surface format of the negotiator: 8-bit BGRA with the
standard nonlinear (sRGB) color space. -/
def preferredSurfaceFormat : VkSurfaceFormat :=
  ⟨VK_FORMAT_B8G8R8A8_SRGB, VK_COLOR_SPACE_SRGB_NONLINEAR_KHR⟩

/-! ## Instance creation and layer checking -/

/-- `isValidationLayerSupported`: every requested layer name must occur,
by exact string comparison, among the enumerated available layers. -/
def isValidationLayerSupported (availableLayers : List String) : Bool :=
  validationLayers.all (fun layerName => availableLayers.any (fun l => l == layerName))

/-- The control flow of `createInstance` as far as error raising goes:
the layer check guarded by `enableValidationLayers`, then the
`vkCreateInstance` call whose success is an input. -/
def createInstanceCheck (enableValidationLayers : Bool) (availableLayers : List String)
    (instanceCreationSucceeds : Bool) : Except VulkanError Unit :=
  if enableValidationLayers && !isValidationLayerSupported availableLayers then
    .error .UnsupportedLayer
  else if !instanceCreationSucceeds then .error .InstanceCreationFailed
  else .ok ()

/-! ## Creation and teardown stage orders -/

/-- The resource-creating stages of the pipeline. -/
inductive Stage where
  | vkInstance
  | diagnostics
  | surface
  | logicalDevice
  | swapchain
  | imageViews
  deriving DecidableEq, Repr

/-- The creation order of `initVulkan` (`createInstance`,
`createDebugMessenger` — a no-op unless validation is enabled —
`createSurface`, `createLogicalDevice`, `createSwapChain`,
`createImageViews`; `selectPhysicalDevice` creates no resource). -/
def createOrder (enableValidationLayers : Bool) : List Stage :=
  [Stage.vkInstance] ++ (if enableValidationLayers then [Stage.diagnostics] else [])
    ++ [Stage.surface, Stage.logicalDevice, Stage.swapchain, Stage.imageViews]

/-- The destruction order of `cleanup`: image views, swapchain, logical
device, then (only when validation is enabled) the debug messenger, then
surface, then the Vulkan instance. -/
def destroyOrder (enableValidationLayers : Bool) : List Stage :=
  [Stage.imageViews, Stage.swapchain, Stage.logicalDevice]
    ++ (if enableValidationLayers then [Stage.diagnostics] else [])
    ++ [Stage.surface, Stage.vkInstance]

/-! ## Auxiliary notions used by the statements -/

/-- The per-index presentation-support query, as a predicate on a
queue-family entry. -/
def supportsPresentation (qf : QueueFamilyProps) : Bool :=
  qf.presentationSupport

/-- The three-way suitability condition of the specification: queue
completeness, required-extension support, and swapchain adequacy (at least
one surface format and at least one presentation mode). -/
def SuitableSpec (d : PhysicalDevice) : Prop :=
  IsComplete (findQueueFamilies d.queueFamilies) = true ∧
    checkDeviceExtensionSupport d = true ∧
    d.surfaceFormats ≠ [] ∧ d.presentationModes ≠ []

instance (d : PhysicalDevice) : Decidable (SuitableSpec d) := by
  unfold SuitableSpec; infer_instance

/-- Index of the last element of `l` satisfying `f`, if any. -/
def lastIdxSat (f : α → Bool) : List α → Option Nat
  | [] => none
  | a :: as =>
    match lastIdxSat f as with
    | some j => some (j + 1)
    | none => if f a then some 0 else none

/-- `scanStops l i` holds when the `findQueueFamilies` loop, run on `l`,
exits at index `i`: after the graphics update at `i` both fields are set,
which happens exactly when some index `< i` passed the presentation query
and some index `≤ i` offers graphics. -/
def scanStops (l : List QueueFamilyProps) (i : Nat) : Bool :=
  (l.take i).any supportsPresentation && (l.take (i + 1)).any supportsGraphics

/-! ## Theorems -/

lemma preferredSurfaceFormat_pred (f : VkSurfaceFormat) :
    (f.format == VK_FORMAT_B8G8R8A8_SRGB && f.colorSpace == VK_COLOR_SPACE_SRGB_NONLINEAR_KHR) = true ↔
      f = preferredSurfaceFormat := by
  cases f
  simp [preferredSurfaceFormat, VK_FORMAT_B8G8R8A8_SRGB, VK_COLOR_SPACE_SRGB_NONLINEAR_KHR,
    VkSurfaceFormat.mk.injEq, Bool.and_eq_true, beq_iff_eq, and_comm]

/-- C4: for every non-empty supported-format list, `chooseSwapSurfaceFormat`
returns the (8-bit BGRA, sRGB-nonlinear) pair whenever that exact pair
occurs anywhere in the list, and otherwise returns the element at index 0. -/
theorem chooseSwapSurfaceFormat_spec (l : List VkSurfaceFormat) (h : l ≠ []) :
    (preferredSurfaceFormat ∈ l →
      chooseSwapSurfaceFormat l = some preferredSurfaceFormat) ∧
    (preferredSurfaceFormat ∉ l →
      chooseSwapSurfaceFormat l = some (l.get ⟨0, List.length_pos.mpr h⟩)) := by
  unfold chooseSwapSurfaceFormat
  rcases hfind : l.find?
      (fun f => f.format == VK_FORMAT_B8G8R8A8_SRGB && f.colorSpace == VK_COLOR_SPACE_SRGB_NONLINEAR_KHR) with
    _ | f
  · rw [hfind]
    constructor
    · intro hmem
      have := List.find?_eq_none.mp hfind _ hmem
      rw [preferredSurfaceFormat_pred] at this
      exact absurd rfl this
    · intro _
      obtain ⟨a, as, rfl⟩ := List.exists_cons_of_ne_nil h
      rfl
  · rw [hfind]
    have hp := List.find?_some hfind
    have hf : f = preferredSurfaceFormat := (preferredSurfaceFormat_pred f).mp hp
    subst hf
    constructor
    · intro _; rfl
    · intro hnot
      exact absurd (List.mem_of_find?_eq_some hfind) hnot

/-- C4 witness: a list containing the preferred pair yields it, and a list
without it yields its head. -/
theorem chooseSwapSurfaceFormat_spec_witness :
    chooseSwapSurfaceFormat [⟨1, 2⟩, ⟨50, 0⟩] = some ⟨50, 0⟩ ∧
    chooseSwapSurfaceFormat [⟨1, 2⟩, ⟨3, 4⟩] = some ⟨1, 2⟩ :=
  ⟨(chooseSwapSurfaceFormat_spec [⟨1, 2⟩, ⟨50, 0⟩] (by decide)).1 (by decide),
   (chooseSwapSurfaceFormat_spec [⟨1, 2⟩, ⟨3, 4⟩] (by decide)).2 (by decide)⟩

/-- C5: `chooseSwapPresentationMode` returns the mailbox mode if it occurs
anywhere in the supported list, and otherwise returns the FIFO mode, even
when FIFO does not appear in the input list. -/
theorem chooseSwapPresentationMode_spec (l : List Nat) :
    (VK_PRESENT_MODE_MAILBOX_KHR ∈ l →
      chooseSwapPresentationMode l = VK_PRESENT_MODE_MAILBOX_KHR) ∧
    (VK_PRESENT_MODE_MAILBOX_KHR ∉ l →
      chooseSwapPresentationMode l = VK_PRESENT_MODE_FIFO_KHR) := by
  unfold chooseSwapPresentationMode
  rcases hfind : l.find? (fun m => m == VK_PRESENT_MODE_MAILBOX_KHR) with _ | m
  · constructor
    · intro hmem
      have := List.find?_eq_none.mp hfind _ hmem
      simp at this
    · intro _; rfl
  · have hm : m = VK_PRESENT_MODE_MAILBOX_KHR := by
      have := List.find?_some hfind
      simpa using this
    subst hm
    constructor
    · intro _; rfl
    · intro hnot
      exact absurd (List.mem_of_find?_eq_some hfind) hnot

/-- C5 witness: mailbox (1) is chosen when present; FIFO (2) is returned
for the list `[0, 3]` in which FIFO itself does not appear. -/
theorem chooseSwapPresentationMode_spec_witness :
    chooseSwapPresentationMode [0, 1, 2] = 1 ∧ chooseSwapPresentationMode [0, 3] = 2 :=
  ⟨(chooseSwapPresentationMode_spec [0, 1, 2]).1 (by decide),
   (chooseSwapPresentationMode_spec [0, 3]).2 (by decide)⟩

/-- C6 counterexample: `chooseSwapExtent` tests only the width component
against `UINT32_MAX`, so on `currentExtent = (UINT32_MAX, 5)` — which is
not the undefined sentinel pair — it does not return `currentExtent`
verbatim, contrary to the claim. -/
theorem chooseSwapExtent_sentinel_cex :
    (⟨2, 3, ⟨4294967295, 5⟩, ⟨400, 300⟩, ⟨1920, 1080⟩⟩ : VkSurfaceCapabilities).currentExtent ≠
        (⟨4294967295, 4294967295⟩ : VkExtent2D) ∧
      chooseSwapExtent ⟨2, 3, ⟨4294967295, 5⟩, ⟨400, 300⟩, ⟨1920, 1080⟩⟩ = ⟨800, 600⟩ ∧
      chooseSwapExtent ⟨2, 3, ⟨4294967295, 5⟩, ⟨400, 300⟩, ⟨1920, 1080⟩⟩ ≠
        (⟨2, 3, ⟨4294967295, 5⟩, ⟨400, 300⟩, ⟨1920, 1080⟩⟩ : VkSurfaceCapabilities).currentExtent := by
  refine ⟨by decide, ?_, by decide⟩
  decide

/-- C6 (amended): the sentinel test is on the width component alone — if
`currentExtent.width ≠ UINT32_MAX` the current extent is returned
verbatim, and if `currentExtent.width = UINT32_MAX` the fixed (800, 600)
window target is clamped independently per axis into
[`minImageExtent`, `maxImageExtent`]. -/
theorem chooseSwapExtent_spec (cap : VkSurfaceCapabilities) :
    (cap.currentExtent.width ≠ UINT32_MAX → chooseSwapExtent cap = cap.currentExtent) ∧
    (cap.currentExtent.width = UINT32_MAX →
      chooseSwapExtent cap =
        ⟨max cap.minImageExtent.width (min cap.maxImageExtent.width 800),
         max cap.minImageExtent.height (min cap.maxImageExtent.height 600)⟩) := by
  unfold chooseSwapExtent
  constructor
  · intro h; simp [h]
  · intro h; simp [h, WINDOW_WIDTH, WINDOW_HEIGHT]

/-- C6 witness: the two numeric examples of the claim — sentinel extent
with bounds min=(400,300), max=(1920,1080) and target (800,600) gives
(800,600); and with minimum (400,300) a (100,100)-style small target is
clamped up (here via the fixed (800,600) target against min=(900,700):
clamped up to (900,700)); a non-sentinel current extent is verbatim. -/
theorem chooseSwapExtent_spec_witness :
    chooseSwapExtent ⟨2, 3, ⟨4294967295, 4294967295⟩, ⟨400, 300⟩, ⟨1920, 1080⟩⟩ = ⟨800, 600⟩ ∧
    chooseSwapExtent ⟨2, 3, ⟨1024, 768⟩, ⟨400, 300⟩, ⟨1920, 1080⟩⟩ = ⟨1024, 768⟩ :=
  ⟨(chooseSwapExtent_spec ⟨2, 3, ⟨4294967295, 4294967295⟩, ⟨400, 300⟩, ⟨1920, 1080⟩⟩).2 (by decide),
   (chooseSwapExtent_spec ⟨2, 3, ⟨1024, 768⟩, ⟨400, 300⟩, ⟨1920, 1080⟩⟩).1 (by decide)⟩

/-- C7: the requested swapchain image count is `minImageCount + 1`,
clamped down to `maxImageCount` exactly when that maximum is nonzero and
exceeded; a zero maximum means unbounded. -/
theorem requestedImageCount_spec (cap : VkSurfaceCapabilities)
    (h : cap.minImageCount + 1 < 2 ^ 32) :
    (cap.maxImageCount = 0 → requestedImageCount cap = cap.minImageCount + 1) ∧
    (cap.maxImageCount ≠ 0 → cap.minImageCount + 1 ≤ cap.maxImageCount →
      requestedImageCount cap = cap.minImageCount + 1) ∧
    (cap.maxImageCount ≠ 0 → cap.minImageCount + 1 > cap.maxImageCount →
      requestedImageCount cap = cap.maxImageCount) := by
  unfold requestedImageCount
  rw [Nat.mod_eq_of_lt h]
  refine ⟨fun h0 => ?_, fun hne hle => ?_, fun hne hgt => ?_⟩
  · rw [if_neg]; omega
  · rw [if_neg]; omega
  · rw [if_pos]; omega

/-- C7 witness: minImageCount=2, maxImageCount=0 requests 3 images;
minImageCount=3, maxImageCount=3 requests 3 (clamped down from 4). -/
theorem requestedImageCount_spec_witness :
    requestedImageCount ⟨2, 0, ⟨1, 1⟩, ⟨1, 1⟩, ⟨1, 1⟩⟩ = 3 ∧
    requestedImageCount ⟨3, 3, ⟨1, 1⟩, ⟨1, 1⟩, ⟨1, 1⟩⟩ = 3 :=
  ⟨(requestedImageCount_spec ⟨2, 0, ⟨1, 1⟩, ⟨1, 1⟩, ⟨1, 1⟩⟩ (by norm_num)).1 rfl,
   (requestedImageCount_spec ⟨3, 3, ⟨1, 1⟩, ⟨1, 1⟩, ⟨1, 1⟩⟩ (by norm_num)).2.2 (by decide) (by decide)⟩

/-- C8: distinct graphics/presentation family indices give concurrent
sharing with index count 2 and exactly those two indices; identical
indices give exclusive sharing with index count 0 and an empty list. -/
theorem sharingConfig_spec (g p : Nat) :
    (g ≠ p → sharingConfig g p = ⟨VK_SHARING_MODE_CONCURRENT, 2, [g, p]⟩) ∧
    (g = p → sharingConfig g p = ⟨VK_SHARING_MODE_EXCLUSIVE, 0, []⟩) := by
  unfold sharingConfig
  constructor
  · intro h; rw [if_pos h]
  · intro h; rw [if_neg (by simpa using h)]

/-- C8 witness: families (0, 1) give concurrent sharing over [0, 1];
families (2, 2) give exclusive sharing with an empty list. -/
theorem sharingConfig_spec_witness :
    sharingConfig 0 1 = ⟨VK_SHARING_MODE_CONCURRENT, 2, [0, 1]⟩ ∧
    sharingConfig 2 2 = ⟨VK_SHARING_MODE_EXCLUSIVE, 0, []⟩ :=
  ⟨(sharingConfig_spec 0 1).1 (by decide), (sharingConfig_spec 2 2).2 rfl⟩

/-- C9: `createInstance` raises `UnsupportedLayer` iff validation layers
are enabled and some requested layer is missing from the available set by
exact name match; with validation disabled the check is skipped and
`UnsupportedLayer` is never raised. -/
theorem createInstanceCheck_UnsupportedLayer_iff (enable : Bool)
    (availableLayers : List String) (ok : Bool) :
    (createInstanceCheck enable availableLayers ok = .error .UnsupportedLayer ↔
      enable = true ∧ ∃ layer ∈ validationLayers, layer ∉ availableLayers) ∧
    (enable = false →
      createInstanceCheck enable availableLayers ok ≠ .error .UnsupportedLayer) := by
  have hsupp : isValidationLayerSupported availableLayers = false ↔
      ∃ layer ∈ validationLayers, layer ∉ availableLayers := by
    unfold isValidationLayerSupported
    rw [← Bool.not_eq_true, List.all_eq_true]
    push_neg
    constructor
    · rintro ⟨layer, hmem, hany⟩
      refine ⟨layer, hmem, fun hin => hany ?_⟩
      exact List.any_eq_true.mpr ⟨layer, hin, by simp⟩
    · rintro ⟨layer, hmem, hnin⟩
      refine ⟨layer, hmem, fun hany => hnin ?_⟩
      obtain ⟨x, hx, hbeq⟩ := List.any_eq_true.mp hany
      rwa [show x = layer from by simpa using hbeq] at hx
  unfold createInstanceCheck
  constructor
  · constructor
    · intro hr
      by_cases hcond : (enable && !isValidationLayerSupported availableLayers) = true
      · rcases Bool.and_eq_true_iff.mp hcond with ⟨he, hs⟩
        exact ⟨he, hsupp.mp (by simpa using hs)⟩
      · rw [if_neg hcond] at hr
        by_cases hok : ok = true <;> simp [hok] at hr
    · rintro ⟨he, hmissing⟩
      rw [if_pos]
      rw [Bool.and_eq_true, he]
      exact ⟨rfl, by simp [hsupp.mpr hmissing]⟩
  · intro he hr
    rw [he] at hr
    rw [if_neg (by simp)] at hr
    by_cases hok : ok = true <;> simp [hok] at hr

/-- C9 witness: with validation enabled and an empty available-layer set
the check raises `UnsupportedLayer`; with validation disabled and the same
empty set it does not. -/
theorem createInstanceCheck_UnsupportedLayer_iff_witness :
    createInstanceCheck true [] true = .error .UnsupportedLayer ∧
    createInstanceCheck false [] true ≠ .error .UnsupportedLayer :=
  ⟨(createInstanceCheck_UnsupportedLayer_iff true [] true).1.mpr
      ⟨rfl, "VK_LAYER_KHRONOS_validation", by simp [validationLayers], by simp⟩,
   (createInstanceCheck_UnsupportedLayer_iff false [] true).2 rfl⟩

/-- C3 counterexample: with diagnostics enabled the teardown order of
`cleanup` is not the exact reverse of the creation order of `initVulkan` —
the debug messenger is destroyed before the surface, while exact reversal
would destroy the surface first. -/
theorem destroyOrder_not_exact_reverse :
    destroyOrder true ≠ (createOrder true).reverse := by
  decide

/-- C3 (amended): with diagnostics disabled teardown is the exact reverse
of creation; with diagnostics enabled it is the reverse except for one
transposition — the diagnostics sink is destroyed immediately after the
logical device, before the surface, although it was created before the
surface; the diagnostics stage is skipped symmetrically. -/
theorem teardown_order_spec :
    destroyOrder false = (createOrder false).reverse ∧
    destroyOrder true =
      [Stage.imageViews, Stage.swapchain, Stage.logicalDevice,
        Stage.diagnostics, Stage.surface, Stage.vkInstance] ∧
    (createOrder true).reverse =
      [Stage.imageViews, Stage.swapchain, Stage.logicalDevice,
        Stage.surface, Stage.diagnostics, Stage.vkInstance] := by
  decide

lemma isDeviceSuitable_iff (d : PhysicalDevice) :
    isDeviceSuitable d = true ↔ SuitableSpec d := by
  unfold isDeviceSuitable SuitableSpec
  cases hE : checkDeviceExtensionSupport d <;>
    simp [hE, List.isEmpty_iff, and_assoc]

/-- C1: `selectPhysicalDevice` fails with `NoAcceleratorFound` on an empty
enumeration; otherwise it returns the first candidate, in enumeration
order, satisfying queue-completeness, required-extension support and
swapchain adequacy, and fails with `NoSuitableAccelerator` when no
candidate satisfies all three. -/
theorem selectPhysicalDevice_spec (devices : List PhysicalDevice) :
    (devices = [] → selectPhysicalDevice devices = .error .NoAcceleratorFound) ∧
    (∀ earlier d later, devices = earlier ++ d :: later →
      (∀ x ∈ earlier, ¬ SuitableSpec x) → SuitableSpec d →
      selectPhysicalDevice devices = .ok d) ∧
    ((∀ x ∈ devices, ¬ SuitableSpec x) → devices ≠ [] →
      selectPhysicalDevice devices = .error .NoSuitableAccelerator) := by
  refine ⟨fun h => by subst h; rfl, ?_, ?_⟩
  · rintro earlier d later rfl hearlier hd
    unfold selectPhysicalDevice
    rw [if_neg (by simp)]
    have hpre : earlier.find? isDeviceSuitable = none :=
      List.find?_eq_none.mpr fun x hx =>
        fun hsx => hearlier x hx ((isDeviceSuitable_iff x).mp hsx)
    have hfind : (earlier ++ d :: later).find? isDeviceSuitable = some d := by
      rw [List.find?_append, hpre, Option.none_or,
        List.find?_cons_of_pos _ ((isDeviceSuitable_iff d).mpr hd)]
    rw [hfind]
  · intro hall hne
    unfold selectPhysicalDevice
    rw [if_neg (by simpa using hne)]
    have hfind : devices.find? isDeviceSuitable = none :=
      List.find?_eq_none.mpr fun x hx hsx => hall x hx ((isDeviceSuitable_iff x).mp hsx)
    rw [hfind]

/-- C1 witness: the empty list fails with `NoAcceleratorFound`; a list
whose first element lacks the swapchain extension and whose second element
is suitable selects the second; a singleton unsuitable list fails with
`NoSuitableAccelerator`. -/
theorem selectPhysicalDevice_spec_witness :
    selectPhysicalDevice [] = .error .NoAcceleratorFound ∧
    selectPhysicalDevice
        [⟨[⟨1, true⟩], [], ⟨2, 0, ⟨1, 1⟩, ⟨1, 1⟩, ⟨1, 1⟩⟩, [⟨1, 2⟩], [2]⟩,
         ⟨[⟨1, true⟩], ["VK_KHR_swapchain"], ⟨2, 0, ⟨1, 1⟩, ⟨1, 1⟩, ⟨1, 1⟩⟩, [⟨1, 2⟩], [2]⟩] =
      .ok ⟨[⟨1, true⟩], ["VK_KHR_swapchain"], ⟨2, 0, ⟨1, 1⟩, ⟨1, 1⟩, ⟨1, 1⟩⟩, [⟨1, 2⟩], [2]⟩ ∧
    selectPhysicalDevice [⟨[⟨1, true⟩], [], ⟨2, 0, ⟨1, 1⟩, ⟨1, 1⟩, ⟨1, 1⟩⟩, [⟨1, 2⟩], [2]⟩] =
      .error .NoSuitableAccelerator :=
  ⟨(selectPhysicalDevice_spec []).1 rfl,
   (selectPhysicalDevice_spec _).2.1
      [⟨[⟨1, true⟩], [], ⟨2, 0, ⟨1, 1⟩, ⟨1, 1⟩, ⟨1, 1⟩⟩, [⟨1, 2⟩], [2]⟩]
      ⟨[⟨1, true⟩], ["VK_KHR_swapchain"], ⟨2, 0, ⟨1, 1⟩, ⟨1, 1⟩, ⟨1, 1⟩⟩, [⟨1, 2⟩], [2]⟩ []
      rfl (by decide) (by decide),
   (selectPhysicalDevice_spec _).2.2 (by decide) (by decide)⟩

/-- C10: whenever `selectPhysicalDevice` succeeds, the queue-family scan
re-run on the selected accelerator (as `createLogicalDevice` and
`createSwapChain` both do) yields both optional indices present, so the
two `.value()` unwraps never hit the absent-value branch. -/
theorem selected_device_unwrap_safe (devices : List PhysicalDevice)
    (d : PhysicalDevice) (h : selectPhysicalDevice devices = .ok d) :
    (findQueueFamilies d.queueFamilies).graphicsFamily.isSome = true ∧
    (findQueueFamilies d.queueFamilies).presentationFamily.isSome = true ∧
    ∃ g p, unwrapQueueFamilies (findQueueFamilies d.queueFamilies) = some (g, p) := by
  unfold selectPhysicalDevice at h
  by_cases hlen : devices.length = 0
  · rw [if_pos hlen] at h; exact absurd h (by simp)
  · rw [if_neg hlen] at h
    rcases hfind : devices.find? isDeviceSuitable with _ | d0
    · rw [hfind] at h; exact absurd h (by simp)
    · rw [hfind] at h
      have hd : d0 = d := by simpa using h
      subst hd
      have hsuit := (isDeviceSuitable_iff d0).mp (List.find?_some hfind)
      have hcomp := hsuit.1
      unfold IsComplete at hcomp
      rcases Bool.and_eq_true_iff.mp hcomp with ⟨hg, hp⟩
      refine ⟨hg, hp, ?_⟩
      rcases hgx : (findQueueFamilies d0.queueFamilies).graphicsFamily with _ | g
      · rw [hgx] at hg; simp at hg
      · rcases hpx : (findQueueFamilies d0.queueFamilies).presentationFamily with _ | p
        · rw [hpx] at hp; simp at hp
        · exact ⟨g, p, by unfold unwrapQueueFamilies; rw [hgx, hpx]⟩

/-- C10 witness: on a single suitable device, selection succeeds and the
re-run scan unwraps to concrete indices. -/
theorem selected_device_unwrap_safe_witness :
    (findQueueFamilies
        (⟨[⟨1, true⟩], ["VK_KHR_swapchain"], ⟨2, 0, ⟨1, 1⟩, ⟨1, 1⟩, ⟨1, 1⟩⟩, [⟨1, 2⟩],
          [2]⟩ : PhysicalDevice).queueFamilies).graphicsFamily.isSome = true ∧
    (findQueueFamilies
        (⟨[⟨1, true⟩], ["VK_KHR_swapchain"], ⟨2, 0, ⟨1, 1⟩, ⟨1, 1⟩, ⟨1, 1⟩⟩, [⟨1, 2⟩],
          [2]⟩ : PhysicalDevice).queueFamilies).presentationFamily.isSome = true ∧
    ∃ g p, unwrapQueueFamilies (findQueueFamilies
        (⟨[⟨1, true⟩], ["VK_KHR_swapchain"], ⟨2, 0, ⟨1, 1⟩, ⟨1, 1⟩, ⟨1, 1⟩⟩, [⟨1, 2⟩],
          [2]⟩ : PhysicalDevice).queueFamilies) = some (g, p) :=
  selected_device_unwrap_safe
    [⟨[⟨1, true⟩], ["VK_KHR_swapchain"], ⟨2, 0, ⟨1, 1⟩, ⟨1, 1⟩, ⟨1, 1⟩⟩, [⟨1, 2⟩], [2]⟩]
    ⟨[⟨1, true⟩], ["VK_KHR_swapchain"], ⟨2, 0, ⟨1, 1⟩, ⟨1, 1⟩, ⟨1, 1⟩⟩, [⟨1, 2⟩], [2]⟩
    rfl

/-! ## Queue-family scan characterization (C2) -/

lemma lastIdxSat_append_singleton (f : α → Bool) (d : List α) (a : α) :
    lastIdxSat f (d ++ [a]) = if f a then some d.length else lastIdxSat f d := by
  induction d with
  | nil => cases hfa : f a <;> simp [lastIdxSat, hfa]
  | cons b d ih =>
    cases hfa : f a <;> cases hfd : lastIdxSat f d <;>
      simp [lastIdxSat, ih, hfa, hfd]

lemma lastIdxSat_isSome (f : α → Bool) (l : List α) :
    (lastIdxSat f l).isSome = l.any f := by
  induction l with
  | nil => rfl
  | cons a l ih =>
    rw [List.any_cons, ← ih]
    cases hfl : lastIdxSat f l <;> cases hfa : f a <;> simp [lastIdxSat, hfl, hfa]

lemma findQueueFamiliesLoop_cons (a : QueueFamilyProps) (rest : List QueueFamilyProps)
    (k : Nat) (ind : QueueFamilyIndices) :
    findQueueFamiliesLoop (a :: rest) k ind =
      if IsComplete (if supportsGraphics a then { ind with graphicsFamily := some k } else ind) then
        (if supportsGraphics a then { ind with graphicsFamily := some k } else ind)
      else
        findQueueFamiliesLoop rest (k + 1)
          (if a.presentationSupport then
            { (if supportsGraphics a then { ind with graphicsFamily := some k } else ind) with
                presentationFamily := some k }
          else (if supportsGraphics a then { ind with graphicsFamily := some k } else ind)) := rfl

lemma graphics_update (a : QueueFamilyProps) (done : List QueueFamilyProps) :
    (if supportsGraphics a then
        { (⟨lastIdxSat supportsGraphics done, lastIdxSat supportsPresentation done⟩ :
            QueueFamilyIndices) with graphicsFamily := some done.length }
      else
        (⟨lastIdxSat supportsGraphics done, lastIdxSat supportsPresentation done⟩ :
          QueueFamilyIndices)) =
      ⟨lastIdxSat supportsGraphics (done ++ [a]), lastIdxSat supportsPresentation done⟩ := by
  rw [lastIdxSat_append_singleton]
  cases supportsGraphics a <;> simp

lemma presentation_update (a : QueueFamilyProps) (done : List QueueFamilyProps) :
    (if a.presentationSupport then
        { (⟨lastIdxSat supportsGraphics (done ++ [a]), lastIdxSat supportsPresentation done⟩ :
            QueueFamilyIndices) with presentationFamily := some done.length }
      else
        (⟨lastIdxSat supportsGraphics (done ++ [a]), lastIdxSat supportsPresentation done⟩ :
          QueueFamilyIndices)) =
      ⟨lastIdxSat supportsGraphics (done ++ [a]), lastIdxSat supportsPresentation (done ++ [a])⟩ := by
  rw [lastIdxSat_append_singleton (f := supportsPresentation)]
  cases hpa : a.presentationSupport <;> simp [supportsPresentation, hpa]

lemma complete_eq_scanStops (a : QueueFamilyProps) (done rest : List QueueFamilyProps) :
    IsComplete ⟨lastIdxSat supportsGraphics (done ++ [a]), lastIdxSat supportsPresentation done⟩ =
      scanStops (done ++ a :: rest) done.length := by
  unfold IsComplete scanStops
  have htake_k : (done ++ a :: rest).take done.length = done := List.take_left _ _
  have htake_k1 : (done ++ a :: rest).take (done.length + 1) = done ++ [a] := by
    rw [show done ++ a :: rest = (done ++ [a]) ++ rest by simp]
    exact List.take_left' (by simp)
  rw [htake_k, htake_k1, lastIdxSat_isSome, lastIdxSat_isSome, Bool.and_comm]

lemma findQueueFamiliesLoop_stop (rem : List QueueFamilyProps) :
    ∀ (done : List QueueFamilyProps) (s : Nat),
      done.length ≤ s → s < (done ++ rem).length →
      scanStops (done ++ rem) s = true →
      (∀ i, i < s → scanStops (done ++ rem) i = false) →
      findQueueFamiliesLoop rem done.length
          ⟨lastIdxSat supportsGraphics done, lastIdxSat supportsPresentation done⟩ =
        ⟨lastIdxSat supportsGraphics ((done ++ rem).take (s + 1)),
         lastIdxSat supportsPresentation ((done ++ rem).take s)⟩ := by
  induction rem with
  | nil =>
    intro done s hks hsl _ _
    simp at hsl
    omega
  | cons a rest ih =>
    intro done s hks hsl hstop hbefore
    have hl : done ++ a :: rest = (done ++ [a]) ++ rest := by simp
    have htake_k : (done ++ a :: rest).take done.length = done := List.take_left _ _
    have htake_k1 : (done ++ a :: rest).take (done.length + 1) = done ++ [a] := by
      rw [hl]; exact List.take_left' (by simp)
    rw [findQueueFamiliesLoop_cons, graphics_update, complete_eq_scanStops a done rest]
    cases hstopk : scanStops (done ++ a :: rest) done.length with
    | true =>
      rw [if_pos rfl]
      have hs : s = done.length := by
        rcases Nat.lt_or_ge done.length s with h | h
        · have := hbefore done.length h
          rw [this] at hstopk
          exact absurd hstopk (by simp)
        · omega
      subst hs
      rw [htake_k, htake_k1]
    | false =>
      rw [if_neg (by simp)]
      rw [presentation_update]
      have hsk : done.length + 1 ≤ s := by
        rcases Nat.lt_or_ge done.length s with h | h
        · omega
        · have : s = done.length := by omega
          rw [this] at hstop
          rw [hstop] at hstopk
          exact absurd hstopk (by simp)
      have hlen : done.length + 1 = (done ++ [a]).length := by simp
      rw [hl] at hsl hstop hbefore ⊢
      rw [hlen]
      exact ih (done ++ [a]) s (by simpa using hsk) hsl hstop hbefore

lemma findQueueFamiliesLoop_nostop (rem : List QueueFamilyProps) :
    ∀ (done : List QueueFamilyProps),
      (∀ i, i < (done ++ rem).length → scanStops (done ++ rem) i = false) →
      findQueueFamiliesLoop rem done.length
          ⟨lastIdxSat supportsGraphics done, lastIdxSat supportsPresentation done⟩ =
        ⟨lastIdxSat supportsGraphics (done ++ rem),
         lastIdxSat supportsPresentation (done ++ rem)⟩ := by
  induction rem with
  | nil =>
    intro done _
    simp [findQueueFamiliesLoop]
  | cons a rest ih =>
    intro done hall
    have hl : done ++ a :: rest = (done ++ [a]) ++ rest := by simp
    rw [findQueueFamiliesLoop_cons, graphics_update, complete_eq_scanStops a done rest]
    have hstopk : scanStops (done ++ a :: rest) done.length = false := by
      apply hall
      simp
    rw [hstopk, if_neg (by simp), presentation_update]
    have hlen : done.length + 1 = (done ++ [a]).length := by simp
    rw [hl] at hall ⊢
    rw [hlen]
    exact ih (done ++ [a]) hall

/-- C2 counterexample: on the queue-family list [graphics-only,
graphics-and-presentation] the first family offering graphics capability
is index 0 (witnessed by `List.findIdx?`), yet `findQueueFamilies` records
`graphicsFamily = some 1`: the scan overwrites the graphics field at every
graphics-capable index instead of keeping the first one. -/
theorem findQueueFamilies_not_first_graphics :
    List.findIdx? supportsGraphics [⟨1, false⟩, ⟨1, true⟩] = some 0 ∧
    (findQueueFamilies [⟨1, false⟩, ⟨1, true⟩]).graphicsFamily = some 1 ∧
    (findQueueFamilies [⟨1, false⟩, ⟨1, true⟩]).graphicsFamily ≠ some 0 := by
  decide

/-- C2 (amended): `findQueueFamilies` scans the family list in order,
at each index first overwriting `graphicsFamily` when the index offers
graphics, then exiting once both fields are set (`scanStops`), else
overwriting `presentationFamily` when the per-index presentation query
passes.  Hence when the scan stops at index `s`, `graphicsFamily` is the
LAST graphics-capable index among the first `s + 1` entries and
`presentationFamily` the LAST presentation-capable index among the first
`s` entries; when no index triggers the stop, each field is the last
capable index of the whole list (not the first). -/
theorem findQueueFamilies_char (l : List QueueFamilyProps) :
    (∀ s, s < l.length → scanStops l s = true → (∀ i, i < s → scanStops l i = false) →
      findQueueFamilies l =
        ⟨lastIdxSat supportsGraphics (l.take (s + 1)),
         lastIdxSat supportsPresentation (l.take s)⟩) ∧
    ((∀ i, i < l.length → scanStops l i = false) →
      findQueueFamilies l =
        ⟨lastIdxSat supportsGraphics l, lastIdxSat supportsPresentation l⟩) := by
  constructor
  · intro s hsl hstop hbefore
    have := findQueueFamiliesLoop_stop l [] s (by simp) (by simpa) (by simpa)
      (by simpa using hbefore)
    simpa [findQueueFamilies, lastIdxSat] using this
  · intro hall
    have := findQueueFamiliesLoop_nostop l [] (by simpa)
    simpa [findQueueFamilies, lastIdxSat] using this

/-- C2 witness: on [graphics-only, graphics-and-presentation] the scan
never stops early and records the last capable indices (1, 1); on
[combined, combined] the scan stops at index 1 and records (1, 0). -/
theorem findQueueFamilies_char_witness :
    findQueueFamilies [⟨1, false⟩, ⟨1, true⟩] = ⟨some 1, some 1⟩ ∧
    findQueueFamilies [⟨1, true⟩, ⟨1, true⟩] = ⟨some 1, some 0⟩ :=
  ⟨(findQueueFamilies_char [⟨1, false⟩, ⟨1, true⟩]).2 (by decide),
   (findQueueFamilies_char [⟨1, true⟩, ⟨1, true⟩]).1 1 (by decide) (by decide) (by decide)⟩

end VulkanEngine
